import Mathlib

/-
  Verification development for the pragents code-coverage workflow.

  Shallow embedding of:
    - src/agents/base_agent.py   (AgentStatus, AgentResult, BaseAgent.validate_context, BaseAgent.run)
    - src/utils/helpers.py       (retry)
    - src/workflow/state.py      (WorkflowState)
    - src/workflow/nodes.py      (the five node functions and the router should_generate_tests)
    - src/workflow/graph.py      (graph topology)
    - src/api/routes/workflow.py (run_workflow_background outcome recording)

  Python dict-valued state is embedded as a function from string keys to
  optional values; a raised Python exception is embedded as the error branch
  of an Except; each node's external agent call is abstracted by passing the
  AgentResult that the call returned as an explicit argument, while the node
  body itself is translated statement by statement from the source.
-/

namespace Pragents

/-- A Python runtime value as it occurs in the workflow state: strings,
numbers (int/float embedded as rationals), lists, dicts, and None. -/
inductive Val where
  | str : String → Val
  | num : ℚ → Val
  | list : List Val → Val
  | dict : List (String × Val) → Val
  | pyNone : Val

/-- A raised Python exception: its class name and its message (str(e)). -/
structure PyErr where
  kind : String
  msg : String
deriving DecidableEq

/-- The workflow state (src/workflow/state.py): a TypedDict with total=False,
i.e. a mapping from key names to optionally-present values. -/
def WorkflowState : Type := String → Option Val

/-- The empty dict. -/
def emptyD : WorkflowState := fun _ => Option.none

/-- A Python dict literal with the given key/value pairs. -/
def pdict (l : List (String × Val)) : WorkflowState := fun k => l.lookup k

/-- Python dict subscription state[k]: raises KeyError when the key is absent. -/
def wsub (s : WorkflowState) (k : String) : Except PyErr Val :=
  match s k with
  | some v => Except.ok v
  | Option.none => Except.error ⟨"KeyError", k⟩

/-- Subscription result.data[k] on an agent result's data dict. -/
def dsub (d : List (String × Val)) (k : String) : Except PyErr Val :=
  match d.lookup k with
  | some v => Except.ok v
  | Option.none => Except.error ⟨"KeyError", k⟩

/-- Accessing .split on a value: only strings have it (AttributeError otherwise). -/
def asStr : Val → Except PyErr String
  | Val.str s => Except.ok s
  | _ => Except.error ⟨"AttributeError", "object has no attribute"⟩

/-- Python comparison a < b for the value shapes the workflow stores:
numbers compare numerically, strings lexicographically, anything else
raises TypeError. -/
def pyLt : Val → Val → Except PyErr Bool
  | Val.num a, Val.num b => Except.ok (decide (a < b))
  | Val.str a, Val.str b => Except.ok (decide (a < b))
  | _, _ => Except.error ⟨"TypeError", "unsupported operand types for <"⟩

/-- Embeds a Python Optional[str] into a state value ([result.error] may hold None). -/
def optToVal : Option String → Val
  | some s => Val.str s
  | Option.none => Val.pyNone

/-- Modelled from the spec: the engine's merge of a node's returned partial
update into the state (spec section 4.3) - shallow per-key overwrite, executed
by the LangGraph engine, which is an external dependency not under src/.
A key present in the update replaces the prior value; absent keys are
untouched; nothing is deleted. -/
def merge (s p : WorkflowState) : WorkflowState := fun k =>
  match p k with
  | some v => some v
  | Option.none => s k

/-- Agent execution status (src/agents/base_agent.py, AgentStatus). -/
inductive AgentStatus where
  | pending | running | success | failed | skipped
deriving DecidableEq

/-- The .value of the status string enum. -/
def AgentStatus.value : AgentStatus → String
  | .pending => "pending"
  | .running => "running"
  | .success => "success"
  | .failed => "failed"
  | .skipped => "skipped"

/-- Result from agent execution (src/agents/base_agent.py, AgentResult).
data and metadata default to empty, error to None, exactly as in the
constructor. -/
structure AgentResult where
  status : AgentStatus
  data : List (String × Val) := []
  error : Option String := Option.none
  metadata : List (String × Val) := []

/-- AgentResult.is_success: status == AgentStatus.SUCCESS. -/
def AgentResult.is_success (r : AgentResult) : Bool :=
  decide (r.status = AgentStatus.success)

namespace BaseAgent

/-- Python ", ".join(missing_keys). -/
def strJoin (sep : String) : List String → String
  | [] => ""
  | [x] => x
  | x :: y :: xs => x ++ sep ++ strJoin sep (y :: xs)

/-- The keys of required_keys absent from the context (src/agents/base_agent.py
line 93: [key for key in required_keys if key not in context]). The context is
represented by its key list. -/
def missingKeys (context required_keys : List String) : List String :=
  required_keys.filter (fun k => !(context.contains k))

/-- The ValueError message built at src/agents/base_agent.py lines 95-97. -/
def missingMsg (name : String) (keys : List String) : String :=
  name ++ " missing required context keys: " ++ strJoin ", " keys

/-- BaseAgent.validate_context (src/agents/base_agent.py lines 82-97): raises
ValueError naming the missing keys when any required key is absent from the
context (given by its key list), returns None otherwise. -/
def validate_context (name : String) (context required_keys : List String) :
    Except PyErr Unit :=
  if (missingKeys context required_keys).isEmpty then Except.ok ()
  else Except.error ⟨"ValueError", missingMsg name (missingKeys context required_keys)⟩

/-- BaseAgent.run (src/agents/base_agent.py lines 99-123). The abstract
execute call is represented by its outcome: either the AgentResult it
returned, or the exception it raised. run returns execute's result unchanged
on normal return, and converts any raised exception into a FAILED result
with error=str(e) and the exception type recorded in metadata; it is a total
function into AgentResult, so it never raises. -/
def run (outcome : Except PyErr AgentResult) : AgentResult :=
  match outcome with
  | Except.ok r => r
  | Except.error e =>
      { status := AgentStatus.failed
        data := []
        error := some e.msg
        metadata := [("exception_type", Val.str e.kind)] }

end BaseAgent

/-- repo_name computation at src/workflow/nodes.py line 36:
state["repo_url"].split("/")[-1].replace(".git", ""). -/
def repoNameOf (url : String) : String :=
  ((url.splitOn "/").getLastD "").replace ".git" ""

/-- clone_repository_node (src/workflow/nodes.py lines 21-56). The outcome of
git_agent.run (an external git clone) is passed in as gitRes; the body
otherwise follows the source: subscript state["repo_url"], compute the repo
name, then on success return the repo_path/current_step/repository_id update
and on failure the errors/status/current_step update. -/
def clone_repository_node (gitRes : AgentResult) (state : WorkflowState) :
    Except PyErr WorkflowState := do
  let u ← wsub state "repo_url"
  let us ← asStr u
  let repo_name := repoNameOf us
  if gitRes.is_success then do
    let rp ← dsub gitRes.data "repo_path"
    Except.ok (pdict
      [("repo_path", rp),
       ("current_step", Val.str "clone"),
       ("repository_id", Val.str repo_name)])
  else
    Except.ok (pdict
      [("errors", Val.list [optToVal gitRes.error]),
       ("status", Val.str "failed"),
       ("current_step", Val.str "clone")])

/-- check_coverage_node (src/workflow/nodes.py lines 59-87). The outcome of
sonar_agent.run is passed in as sonarRes. The node first subscripts
state["sonar_project_key"] to build the agent context. -/
def check_coverage_node (sonarRes : AgentResult) (state : WorkflowState) :
    Except PyErr WorkflowState := do
  let _ ← wsub state "sonar_project_key"
  if sonarRes.is_success then do
    let cov ← dsub sonarRes.data "coverage"
    let mets ← dsub sonarRes.data "metrics"
    let unc ← dsub sonarRes.data "uncovered_files"
    Except.ok (pdict
      [("coverage_before", cov),
       ("coverage_metrics", mets),
       ("uncovered_files", unc),
       ("current_step", Val.str "check_coverage")])
  else
    Except.ok (pdict
      [("errors", Val.list [optToVal sonarRes.error]),
       ("status", Val.str "failed"),
       ("current_step", Val.str "check_coverage")])

/-- should_generate_tests (src/workflow/nodes.py lines 90-100):
coverage = state.get("coverage_before", 0); threshold =
state.get("coverage_threshold", 90); return "analyze_code" when
coverage < threshold else "end". -/
def should_generate_tests (state : WorkflowState) : Except PyErr String :=
  let coverage := (state "coverage_before").getD (Val.num 0)
  let threshold := (state "coverage_threshold").getD (Val.num 90)
  match pyLt coverage threshold with
  | Except.error e => Except.error e
  | Except.ok b => if b then Except.ok "analyze_code" else Except.ok "end"

/-- analyze_code_node (src/workflow/nodes.py lines 103-129). The outcome of
analyzer_agent.run is passed in as anaRes. The node subscripts
state["repo_path"] (state.get("uncovered_files", []) cannot raise). -/
def analyze_code_node (anaRes : AgentResult) (state : WorkflowState) :
    Except PyErr WorkflowState := do
  let _ ← wsub state "repo_path"
  if anaRes.is_success then do
    let tc ← dsub anaRes.data "test_candidates"
    Except.ok (pdict
      [("test_candidates", tc),
       ("current_step", Val.str "analyze_code")])
  else
    Except.ok (pdict
      [("errors", Val.list [optToVal anaRes.error]),
       ("status", Val.str "failed"),
       ("current_step", Val.str "analyze_code")])

/-- generate_tests_node (src/workflow/nodes.py lines 132-164). The outcome of
test_gen_agent.run is passed in as genRes. The node subscripts
state["test_candidates"] and state["repo_path"]. -/
def generate_tests_node (genRes : AgentResult) (state : WorkflowState) :
    Except PyErr WorkflowState := do
  let _ ← wsub state "test_candidates"
  let _ ← wsub state "repo_path"
  if genRes.is_success then do
    let gt ← dsub genRes.data "generated_tests"
    let tf ← dsub genRes.data "test_files"
    Except.ok (pdict
      [("generated_tests", gt),
       ("test_files", tf),
       ("current_step", Val.str "generate_tests")])
  else
    Except.ok (pdict
      [("errors", Val.list [optToVal genRes.error]),
       ("status", Val.str "failed"),
       ("current_step", Val.str "generate_tests")])

/-- create_pr_node (src/workflow/nodes.py lines 167-243). The outcomes of the
four agent.run calls (create_branch, commit, push, create PR) are passed in.
The body follows the source order: branch failure check, branch_name
subscription, commit context (subscripts state["test_files"]), commit failure
check (tolerating SKIPPED), push failure check, PR context (subscripts
state["repository_id"] and state["test_files"]; state.get("coverage_before")
cannot raise), PR result check. -/
def create_pr_node (branchRes commitRes pushRes prRes : AgentResult)
    (state : WorkflowState) : Except PyErr WorkflowState := do
  if !branchRes.is_success then
    Except.ok (pdict
      [("errors", Val.list [optToVal branchRes.error]),
       ("status", Val.str "failed"),
       ("current_step", Val.str "create_pr")])
  else do
    let bn ← dsub branchRes.data "branch_name"
    let _ ← wsub state "test_files"
    if !commitRes.is_success && commitRes.status.value != "skipped" then
      Except.ok (pdict
        [("errors", Val.list [optToVal commitRes.error]),
         ("status", Val.str "failed"),
         ("current_step", Val.str "create_pr")])
    else if !pushRes.is_success then
      Except.ok (pdict
        [("errors", Val.list [optToVal pushRes.error]),
         ("status", Val.str "failed"),
         ("current_step", Val.str "create_pr")])
    else do
      let _ ← wsub state "repository_id"
      let _ ← wsub state "test_files"
      if prRes.is_success then do
        let pid ← dsub prRes.data "pr_id"
        let purl ← dsub prRes.data "pr_url"
        Except.ok (pdict
          [("branch_name", bn),
           ("pr_id", pid),
           ("pr_url", purl),
           ("status", Val.str "success"),
           ("current_step", Val.str "create_pr")])
      else
        Except.ok (pdict
          [("errors", Val.list [optToVal prRes.error]),
           ("status", Val.str "failed"),
           ("current_step", Val.str "create_pr")])

/-- The five registered node names (src/workflow/graph.py lines 33-37). -/
inductive NodeName where
  | clone_repository | check_coverage | analyze_code | generate_tests | create_pr
deriving DecidableEq

/-- An edge target: another node or the terminal END marker. -/
inductive Target where
  | toNode : NodeName → Target
  | toEnd : Target
deriving DecidableEq

/-- The static edges of the graph (src/workflow/graph.py lines 43, 55-57):
clone_repository → check_coverage, analyze_code → generate_tests,
generate_tests → create_pr, create_pr → END. check_coverage has a
conditional edge instead. -/
def staticTarget : NodeName → Option Target
  | NodeName.clone_repository => some (Target.toNode NodeName.check_coverage)
  | NodeName.analyze_code => some (Target.toNode NodeName.generate_tests)
  | NodeName.generate_tests => some (Target.toNode NodeName.create_pr)
  | NodeName.create_pr => some Target.toEnd
  | NodeName.check_coverage => Option.none

/-- The conditional-edge label table attached to check_coverage
(src/workflow/graph.py lines 46-53): "analyze_code" → analyze_code,
"end" → END. -/
def condMap (label : String) : Option Target :=
  if label = "analyze_code" then some (Target.toNode NodeName.analyze_code)
  else if label = "end" then some Target.toEnd
  else Option.none

/-- Modelled from the spec: next-node selection of the engine's state machine
(spec section 4.5 step 2c), executed by the LangGraph engine, which is an
external dependency not under src/. After check_coverage the router
should_generate_tests is evaluated on the post-merge state and its label is
looked up in the conditional table (an unknown label is a routing error);
every other node follows its static edge. -/
def nextTarget (s : WorkflowState) (current : NodeName) : Except PyErr Target :=
  if current = NodeName.check_coverage then do
    let label ← should_generate_tests s
    match condMap label with
    | some t => Except.ok t
    | Option.none => Except.error ⟨"RoutingError", label⟩
  else
    match staticTarget current with
    | some t => Except.ok t
    | Option.none => Except.ok Target.toEnd

/-- An assignment of behavior to each node: the node bodies above with their
agent outcomes fixed. -/
def NodeImpl : Type := NodeName → WorkflowState → Except PyErr WorkflowState

/-- Modelled from the spec: the executor loop of the engine (spec section 4.5),
executed by the LangGraph engine, which is an external dependency not under
src/. Starting from the current node it invokes the node on the state, merges
the returned partial update, selects the next target, and repeats until END;
a raised exception aborts the run. It returns the list of nodes that were
invoked together with the final state (or the propagated exception). fuel
bounds the recursion; the compiled graph is a DAG of five nodes, so any
fuel of at least five is enough. -/
def execFrom (impl : NodeImpl) :
    Nat → NodeName → WorkflowState → List NodeName × Except PyErr WorkflowState
  | 0, _, _ => ([], Except.error ⟨"FuelExhausted", ""⟩)
  | fuel + 1, current, s =>
    match impl current s with
    | Except.error e => ([current], Except.error e)
    | Except.ok pu =>
      let s2 := merge s pu
      match nextTarget s2 current with
      | Except.error e => ([current], Except.error e)
      | Except.ok Target.toEnd => ([current], Except.ok s2)
      | Except.ok (Target.toNode n) =>
        let rest := execFrom impl fuel n s2
        (current :: rest.1, rest.2)

/-- Modelled from the spec: a full run of the compiled workflow starting at
the entry point clone_repository (src/workflow/graph.py line 40), with fuel
ample for the five-node DAG. -/
def runWorkflow (impl : NodeImpl) (init : WorkflowState) :
    List NodeName × Except PyErr WorkflowState :=
  execFrom impl 10 NodeName.clone_repository init

/-- Workflow run status reported by the API layer
(src/api/models.py, WorkflowStatus). -/
inductive WorkflowStatus where
  | pending | running | success | failed
deriving DecidableEq

/-- The test result.get("status") != "failed" of
src/api/routes/workflow.py line 37: true exactly when the status key holds
the string "failed". -/
def isFailedStr : Option Val → Bool
  | some (Val.str s) => s == "failed"
  | _ => false

/-- Outcome recording of run_workflow_background
(src/api/routes/workflow.py lines 36-43): SUCCESS when
result.get("status") != "failed", FAILED otherwise. -/
def recordOutcome (result : WorkflowState) : WorkflowStatus :=
  if isFailedStr (result "status") then WorkflowStatus.failed
  else WorkflowStatus.success

/-- Outcome of one invocation of an operation wrapped by retry: a returned
value or a raised exception. -/
inductive RunOutcome (α : Type) where
  | ok : α → RunOutcome α
  | err : PyErr → RunOutcome α
deriving DecidableEq

/-- The retry loop body (src/utils/helpers.py lines 44-70). op gives the
outcome of the wrapped function's invocation at each 1-based attempt number;
retryable models isinstance(e, exceptions) for the configured exception
tuple; a non-retryable exception is not caught by the except clause and
propagates at once. remaining counts the iterations the for loop still has
(so remaining = 0 is the loop falling through, which raises the
RuntimeError at line 70 since last_exception is None only on that path).
Returns (number of invocations of op, list of sleep durations in order,
final outcome). -/
def retryAux {α : Type} (op : Nat → RunOutcome α) (retryable : PyErr → Bool)
    (exponential_backoff : Bool) :
    Nat → Nat → ℚ → Nat × List ℚ × RunOutcome α
  | 0, _, _ => (0, [], RunOutcome.err ⟨"RuntimeError", "Unexpected retry loop exit"⟩)
  | remaining + 1, attempt, current_delay =>
    match op attempt with
    | RunOutcome.ok v => (1, [], RunOutcome.ok v)
    | RunOutcome.err e =>
      if !retryable e then (1, [], RunOutcome.err e)
      else if remaining = 0 then (1, [], RunOutcome.err e)
      else
        let rest := retryAux op retryable exponential_backoff remaining (attempt + 1)
          (if exponential_backoff then current_delay * 2 else current_delay)
        (1 + rest.1, current_delay :: rest.2.1, rest.2.2)

/-- retry (src/utils/helpers.py lines 23-73) applied to an operation: run the
for loop over attempts 1..max_attempts starting from the initial delay. -/
def retry {α : Type} (max_attempts : Nat) (delay : ℚ) (exponential_backoff : Bool)
    (retryable : PyErr → Bool) (op : Nat → RunOutcome α) :
    Nat × List ℚ × RunOutcome α :=
  retryAux op retryable exponential_backoff max_attempts 1 delay

/- Concrete agent results, mirroring the AgentResult constructions in the
agent sources; the dynamic payloads are parameters. -/

/-- The SUCCESS result of GitAgent._clone_repository
(src/agents/git_agent.py lines 102-109). -/
def gitCloneSuccess (local_path current_branch : String) : AgentResult :=
  { status := AgentStatus.success
    data := [("repo_path", Val.str local_path), ("current_branch", Val.str current_branch)]
    metadata := [("operation", Val.str "clone")] }

/-- The SUCCESS result of GitAgent._create_branch
(src/agents/git_agent.py lines 132-136). -/
def gitBranchSuccess (branch_name : String) : AgentResult :=
  { status := AgentStatus.success
    data := [("branch_name", Val.str branch_name)]
    metadata := [("operation", Val.str "create_branch")] }

/-- The SKIPPED result of GitAgent._commit_changes when there is nothing to
commit (src/agents/git_agent.py lines 161-165). -/
def gitCommitSkipped : AgentResult :=
  { status := AgentStatus.skipped
    data := [("message", Val.str "No changes to commit")]
    metadata := [("operation", Val.str "commit")] }

/-- The SUCCESS result of GitAgent._commit_changes
(src/agents/git_agent.py lines 171-178). -/
def gitCommitSuccess (commit_sha commit_message : String) : AgentResult :=
  { status := AgentStatus.success
    data := [("commit_sha", Val.str commit_sha), ("commit_message", Val.str commit_message)]
    metadata := [("operation", Val.str "commit")] }

/-- The SUCCESS result of GitAgent._push_changes
(src/agents/git_agent.py lines 194-198). -/
def gitPushSuccess (pushed_branch : String) : AgentResult :=
  { status := AgentStatus.success
    data := [("pushed_branch", Val.str pushed_branch)]
    metadata := [("operation", Val.str "push")] }

/-- The SUCCESS result of SonarQubeAgent.execute
(src/agents/sonar_agent.py lines 54-64). -/
def sonarSuccess (project_key : String) (coverage : ℚ) (metrics : List (String × Val))
    (uncovered_lines : List Val) (uncovered_files : List Val) (sonar_url : String) :
    AgentResult :=
  { status := AgentStatus.success
    data := [("project_key", Val.str project_key), ("coverage", Val.num coverage),
             ("metrics", Val.dict metrics), ("uncovered_lines", Val.list uncovered_lines),
             ("uncovered_files", Val.list uncovered_files)]
    metadata := [("sonar_url", Val.str sonar_url)] }

/-- The SUCCESS result of AnalyzerAgent.execute
(src/agents/analyzer_agent.py lines 60-67). -/
def analyzerSuccess (test_candidates : List Val) : AgentResult :=
  { status := AgentStatus.success
    data := [("test_candidates", Val.list test_candidates),
             ("total_candidates", Val.num test_candidates.length)]
    metadata := [("analyzed_files", Val.num test_candidates.length)] }

/-- The SUCCESS result of TestGeneratorAgent.execute
(src/agents/test_gen_agent.py lines 82-90). -/
def testGenSuccess (generated_tests test_files : List Val) (framework : String) :
    AgentResult :=
  { status := AgentStatus.success
    data := [("generated_tests", Val.list generated_tests),
             ("test_files", Val.list test_files),
             ("total_generated", Val.num generated_tests.length)]
    metadata := [("framework", Val.str framework)] }

/-- The SUCCESS result of PRAzureDevOpsAgent.execute
(src/agents/pr_agent.py lines 91-99, truncated to the fields the workflow
reads plus the remaining string fields). -/
def prSuccess (pr_id : ℚ) (pr_url source_branch target_branch title : String) :
    AgentResult :=
  { status := AgentStatus.success
    data := [("pr_id", Val.num pr_id), ("pr_url", Val.str pr_url),
             ("source_branch", Val.str source_branch),
             ("target_branch", Val.str target_branch), ("title", Val.str title)]
    metadata := [] }

/-- A FAILED result as produced by BaseAgent.run's except branch for a raised
exception with message msg and class kind. -/
def failedResult (kind msg : String) : AgentResult :=
  BaseAgent.run (Except.error ⟨kind, msg⟩)

/-- The initial state assembled by run_workflow_background
(src/api/routes/workflow.py lines 23-30), with a numeric coverage
threshold taken from the request. -/
def initState (threshold : ℚ) : WorkflowState :=
  pdict
    [("repo_url", Val.str "https://dev.azure.com/org/proj/_git/repo.git"),
     ("sonar_project_key", Val.str "proj"),
     ("coverage_threshold", Val.num threshold),
     ("timestamp", Val.str "2026-01-01T00:00:00"),
     ("workflow_id", Val.str "wf-1"),
     ("errors", Val.list [])]

/-- Node behaviors for a run in which every external agent call succeeds and
the coverage step reports the given coverage value. -/
def implWith (coverage : ℚ) : NodeImpl
  | NodeName.clone_repository =>
      clone_repository_node (gitCloneSuccess "workspaces/repo" "main")
  | NodeName.check_coverage =>
      check_coverage_node (sonarSuccess "proj" coverage [("coverage", Val.num coverage)] [] [] "http://sonar")
  | NodeName.analyze_code =>
      analyze_code_node (analyzerSuccess [Val.dict [("path", Val.str "a.py")]])
  | NodeName.generate_tests =>
      generate_tests_node (testGenSuccess [Val.dict [("file", Val.str "a.py")]]
        [Val.str "tests/test_a.py"] "pytest")
  | NodeName.create_pr =>
      create_pr_node (gitBranchSuccess "coverage-improvement-x") (gitCommitSuccess "abc" "m")
        (gitPushSuccess "coverage-improvement-x") (prSuccess 7 "http://pr/7" "b" "main" "t")

/-- Node behaviors for scenario C: the clone agent call fails (its run
returned a FAILED result), and the sonar agent call fails too; later agents
would succeed. -/
def implC3 : NodeImpl
  | NodeName.clone_repository =>
      clone_repository_node (failedResult "AgentError" "clone failed")
  | NodeName.check_coverage =>
      check_coverage_node (failedResult "AgentError" "sonar failed")
  | NodeName.analyze_code =>
      analyze_code_node (analyzerSuccess [])
  | NodeName.generate_tests =>
      generate_tests_node (testGenSuccess [] [] "pytest")
  | NodeName.create_pr =>
      create_pr_node (gitBranchSuccess "b") gitCommitSkipped (gitPushSuccess "b")
        (prSuccess 7 "u" "b" "main" "t")

/-- True when an Except value is the ok branch (the call did not raise). -/
def exceptOk : Except PyErr WorkflowState → Bool
  | Except.ok _ => true
  | Except.error _ => false

section Lemmas

/-- Router evaluation for numeric (or defaulted) coverage and threshold. -/
lemma should_generate_tests_eval (s : WorkflowState) (c t : ℚ)
    (h1 : (s "coverage_before").getD (Val.num 0) = Val.num c)
    (h2 : (s "coverage_threshold").getD (Val.num 90) = Val.num t) :
    should_generate_tests s =
      Except.ok (if c < t then "analyze_code" else "end") := by
  unfold should_generate_tests
  rw [h1, h2]
  by_cases h : c < t <;> simp [pyLt, h]

end Lemmas

/-- C1: for states carrying a numeric coverage and threshold, the router
returns the continue label "analyze_code" exactly when coverage_before <
coverage_threshold and the terminal label "end" otherwise; with coverage 95
against threshold 90 the full run executes only clone_repository and
check_coverage and terminates normally, and with coverage 60 against
threshold 90 the remaining nodes execute in the order analyze_code,
generate_tests, create_pr. -/
theorem router_threshold_and_scenarios :
    (∀ (s : WorkflowState) (c t : ℚ),
        s "coverage_before" = some (Val.num c) →
        s "coverage_threshold" = some (Val.num t) →
        (should_generate_tests s = Except.ok "analyze_code" ↔ c < t) ∧
        (should_generate_tests s = Except.ok "end" ↔ ¬ c < t)) ∧
    (runWorkflow (implWith 95) (initState 90)).1 =
      [NodeName.clone_repository, NodeName.check_coverage] ∧
    exceptOk (runWorkflow (implWith 95) (initState 90)).2 = true ∧
    (runWorkflow (implWith 60) (initState 90)).1 =
      [NodeName.clone_repository, NodeName.check_coverage, NodeName.analyze_code,
       NodeName.generate_tests, NodeName.create_pr] ∧
    exceptOk (runWorkflow (implWith 60) (initState 90)).2 = true := by
  refine ⟨?_, rfl, rfl, rfl, rfl⟩
  intro s c t h1 h2
  have he := should_generate_tests_eval s c t (by rw [h1]; rfl) (by rw [h2]; rfl)
  by_cases h : c < t <;> simp [h] at he <;> simp [he, h]

/-- Witness for C1: a state with coverage 60 and threshold 90 routes to the
continue label. -/
theorem router_threshold_and_scenarios_witness :
    should_generate_tests
      (pdict [("coverage_before", Val.num 60), ("coverage_threshold", Val.num 90)]) =
      Except.ok "analyze_code" :=
  (router_threshold_and_scenarios.1
      (pdict [("coverage_before", Val.num 60), ("coverage_threshold", Val.num 90)])
      60 90 rfl rfl).1.mpr (by norm_num)

/-- C9: when coverage_before is absent the router compares the default 0
against the (possibly defaulted) threshold; when coverage_threshold is absent
it defaults to 90; hence a state without coverage_before whose threshold is
absent or a positive number routes to "analyze_code". -/
theorem router_defaults :
    (∀ (s : WorkflowState) (t : ℚ), s "coverage_before" = Option.none →
        s "coverage_threshold" = some (Val.num t) →
        should_generate_tests s =
          Except.ok (if (0 : ℚ) < t then "analyze_code" else "end")) ∧
    (∀ (s : WorkflowState) (c : ℚ), s "coverage_before" = some (Val.num c) →
        s "coverage_threshold" = Option.none →
        should_generate_tests s =
          Except.ok (if c < (90 : ℚ) then "analyze_code" else "end")) ∧
    (∀ s : WorkflowState, s "coverage_before" = Option.none →
        (s "coverage_threshold" = Option.none ∨
          (∃ t : ℚ, s "coverage_threshold" = some (Val.num t) ∧ 0 < t)) →
        should_generate_tests s = Except.ok "analyze_code") := by
  refine ⟨?_, ?_, ?_⟩
  · intro s t h1 h2
    exact should_generate_tests_eval s 0 t (by rw [h1]; rfl) (by rw [h2]; rfl)
  · intro s c h1 h2
    exact should_generate_tests_eval s c 90 (by rw [h1]; rfl) (by rw [h2]; rfl)
  · intro s h1 h2
    rcases h2 with h2 | ⟨t, h2, ht⟩
    · have he := should_generate_tests_eval s 0 90 (by rw [h1]; rfl) (by rw [h2]; rfl)
      simpa using he
    · have he := should_generate_tests_eval s 0 t (by rw [h1]; rfl) (by rw [h2]; rfl)
      simpa [ht] using he

/-- Witness for C9: the empty state (no coverage, no threshold) routes to the
continue label. -/
theorem router_defaults_witness :
    should_generate_tests emptyD = Except.ok "analyze_code" :=
  router_defaults.2.2 emptyD rfl (Or.inl rfl)

/-- C2 counterexample: an exception whose message is empty (as a bare
ValueError() in Python, whose str() is "") yields a Failed result whose error
string is present but empty, refuting the claim's "non-empty error string". -/
theorem run_counterexample :
    (BaseAgent.run (Except.error ⟨"ValueError", ""⟩)).status = AgentStatus.failed ∧
    (BaseAgent.run (Except.error ⟨"ValueError", ""⟩)).error = some "" ∧
    ("" : String).length = 0 :=
  ⟨rfl, rfl, rfl⟩

/-- C2 amended: run never raises (it is a total function into AgentResult):
when execute raises any exception it returns a Failed result whose error is
exactly the exception's message (hence non-empty only when the message is)
with the exception kind recorded in metadata, and when execute returns
normally it passes the result through unchanged. -/
theorem run_converts_exceptions :
    (∀ e : PyErr, BaseAgent.run (Except.error e) =
      { status := AgentStatus.failed
        data := []
        error := some e.msg
        metadata := [("exception_type", Val.str e.kind)] }) ∧
    (∀ r : AgentResult, BaseAgent.run (Except.ok r) = r) :=
  ⟨fun _ => rfl, fun _ => rfl⟩

/-- The partial update that clone_repository_node returns when the clone
agent call failed with message "clone failed". -/
def cloneFailUpd : WorkflowState :=
  pdict
    [("errors", Val.list [Val.str "clone failed"]),
     ("status", Val.str "failed"),
     ("current_step", Val.str "clone")]

/-- The partial update that check_coverage_node returns when the sonar agent
call failed with message "sonar failed". -/
def covFailUpd : WorkflowState :=
  pdict
    [("errors", Val.list [Val.str "sonar failed"]),
     ("status", Val.str "failed"),
     ("current_step", Val.str "check_coverage")]

/-- C3 counterexample: in the run where both the clone and the coverage agent
calls fail, the merged state after the two failures holds a single error (the
coverage step's list replaced the clone step's, since merge overwrites keys),
and the run does not end with an errors list at all: the router (coverage
defaulting to 0 < 90) sends it to analyze_code, which raises KeyError on the
missing repo_path, aborting the run. -/
theorem scenarioC_counterexample :
    (merge (merge (initState 90) cloneFailUpd) covFailUpd) "errors" =
      some (Val.list [Val.str "sonar failed"]) ∧
    runWorkflow implC3 (initState 90) =
      ([NodeName.clone_repository, NodeName.check_coverage, NodeName.analyze_code],
       Except.error ⟨"KeyError", "repo_path"⟩) :=
  ⟨rfl, rfl⟩

/-- C3 amended: when the clone step fails, check_coverage still executes (the
edge out of clone_repository is unconditional, no router checks status); the
coverage step's own context validation succeeds, because it requires only
project_key, which the node supplies from the always-present
sonar_project_key input; and when the coverage agent call also fails its
errors list replaces the clone's single error, so the state after both
failures carries one accumulated error, not two, after which the run aborts
with a KeyError inside analyze_code. -/
theorem scenarioC_amended :
    (∀ s : WorkflowState, nextTarget s NodeName.clone_repository =
        Except.ok (Target.toNode NodeName.check_coverage)) ∧
    (∀ name : String,
        BaseAgent.validate_context name ["project_key"] ["project_key"] = Except.ok ()) ∧
    clone_repository_node (failedResult "AgentError" "clone failed") (initState 90) =
      Except.ok cloneFailUpd ∧
    check_coverage_node (failedResult "AgentError" "sonar failed")
        (merge (initState 90) cloneFailUpd) = Except.ok covFailUpd ∧
    (merge (merge (initState 90) cloneFailUpd) covFailUpd) "errors" =
      some (Val.list [Val.str "sonar failed"]) ∧
    runWorkflow implC3 (initState 90) =
      ([NodeName.clone_repository, NodeName.check_coverage, NodeName.analyze_code],
       Except.error ⟨"KeyError", "repo_path"⟩) :=
  ⟨fun _ => rfl, fun _ => rfl, rfl, rfl, rfl, rfl⟩

/-- C4: the merged state agrees with the prior state on every key absent from
the partial update and with the update on every key it contains, merging the
same update twice equals merging it once, and a list-valued key such as
errors is replaced, not concatenated. -/
theorem merge_semantics (s p : WorkflowState) (k : String) :
    (p k = Option.none → merge s p k = s k) ∧
    (∀ v, p k = some v → merge s p k = some v) ∧
    merge (merge s p) p = merge s p ∧
    (∀ l, p "errors" = some (Val.list l) →
      merge s p "errors" = some (Val.list l)) := by
  refine ⟨?_, ?_, ?_, ?_⟩
  · intro h
    simp [merge, h]
  · intro v h
    simp [merge, h]
  · funext k2
    cases hp : p k2 <;> simp [merge, hp]
  · intro l h
    simp [merge, h]

/-- Witness for C4: merging an errors-only update keeps an untouched key and
replaces the errors list. -/
theorem merge_semantics_witness :
    merge (pdict [("errors", Val.list [Val.str "e1"]), ("repo_path", Val.str "r")])
        (pdict [("errors", Val.list [Val.str "e2"])]) "repo_path" =
      some (Val.str "r") ∧
    merge (pdict [("errors", Val.list [Val.str "e1"]), ("repo_path", Val.str "r")])
        (pdict [("errors", Val.list [Val.str "e2"])]) "errors" =
      some (Val.list [Val.str "e2"]) :=
  ⟨((merge_semantics
        (pdict [("errors", Val.list [Val.str "e1"]), ("repo_path", Val.str "r")])
        (pdict [("errors", Val.list [Val.str "e2"])]) "repo_path").1 rfl).trans rfl,
   (merge_semantics
        (pdict [("errors", Val.list [Val.str "e1"]), ("repo_path", Val.str "r")])
        (pdict [("errors", Val.list [Val.str "e2"])]) "errors").2.1 _ rfl⟩

section RetryLemmas

/-- Unfolding of the retry loop over an always-failing retryable operation:
remaining iterations consume remaining invocations, sleep remaining - 1 times
with the delay scaled by the backoff base each time, and end by re-raising
the last attempt's error. -/
lemma retryAux_always_fails (α : Type) (errs : Nat → PyErr) (retryable : PyErr → Bool)
    (hr : ∀ k, retryable (errs k) = true) (eb : Bool) :
    ∀ (remaining attempt : Nat) (cd : ℚ), 1 ≤ remaining →
    retryAux (fun k => (RunOutcome.err (errs k) : RunOutcome α)) retryable eb
        remaining attempt cd =
      (remaining,
       (List.range (remaining - 1)).map (fun j => cd * (if eb then (2 : ℚ) else 1) ^ j),
       RunOutcome.err (errs (attempt + remaining - 1))) := by
  intro remaining
  induction remaining with
  | zero => intro attempt cd h; omega
  | succ m ih =>
    intro attempt cd _
    cases m with
    | zero => simp [retryAux, hr attempt]
    | succ m2 =>
      have step := ih (attempt + 1) (if eb then cd * 2 else cd) (by omega)
      have unfold1 : retryAux (fun k => (RunOutcome.err (errs k) : RunOutcome α))
          retryable eb (m2 + 1 + 1) attempt cd =
        (if !retryable (errs attempt) then (1, [], RunOutcome.err (errs attempt))
         else if m2 + 1 = 0 then (1, [], RunOutcome.err (errs attempt))
         else
           let rest := retryAux (fun k => (RunOutcome.err (errs k) : RunOutcome α))
             retryable eb (m2 + 1) (attempt + 1) (if eb then cd * 2 else cd)
           (1 + rest.1, cd :: rest.2.1, rest.2.2)) := rfl
      rw [unfold1]
      simp only [hr attempt, Bool.not_true, Bool.false_eq_true, if_false,
        Nat.succ_ne_zero, step]
      simp only [Prod.mk.injEq]
      refine ⟨by omega, ?_, by
        have h3 : attempt + 1 + (m2 + 1) - 1 = attempt + (m2 + 1 + 1) - 1 := by omega
        rw [h3]⟩
      have h1 : m2 + 1 - 1 = m2 := rfl
      have h2 : m2 + 1 + 1 - 1 = m2 + 1 := rfl
      rw [h1, h2, List.range_succ_eq_map]
      simp only [List.map_cons, List.map_map, pow_zero, mul_one, List.cons.injEq]
      refine ⟨trivial, ?_⟩
      apply List.map_congr_left
      intro j _
      simp only [Function.comp_apply]
      cases eb
      · simp
      · simp [pow_succ]
        ring

end RetryLemmas

/-- C5: the retry wrapper with max_attempts = n at least 1, applied to an
operation every invocation of which raises a retryable error, invokes the
operation exactly n times, finally re-raises the n-th attempt's error, and
sleeps n - 1 times, the k-th sleep (1-based) being d * 2^(k-1) when
exponential backoff is on (and d every time when it is off). -/
theorem retry_exhausts_attempts (α : Type) (n : Nat) (hn : 1 ≤ n) (d : ℚ) (eb : Bool)
    (retryable : PyErr → Bool) (errs : Nat → PyErr)
    (hr : ∀ k, retryable (errs k) = true) :
    retry n d eb retryable (fun k => (RunOutcome.err (errs k) : RunOutcome α)) =
      (n,
       (List.range (n - 1)).map (fun j => d * (if eb then (2 : ℚ) else 1) ^ j),
       RunOutcome.err (errs n)) ∧
    ((List.range (n - 1)).map
        (fun j => d * (if eb then (2 : ℚ) else 1) ^ j)).length = n - 1 := by
  constructor
  · have h := retryAux_always_fails α errs retryable hr eb n 1 d hn
    have hn2 : 1 + n - 1 = n := by omega
    rw [retry, h, hn2]
  · simp

/-- Witness for C5: three attempts at initial delay 1 with backoff invoke the
operation three times, sleep for 1 then 2 seconds, and re-raise the error. -/
theorem retry_exhausts_attempts_witness :
    retry 3 1 true (fun _ => true)
        (fun _ => (RunOutcome.err ⟨"AgentError", "boom"⟩ : RunOutcome Unit)) =
      (3, [1, 2], RunOutcome.err ⟨"AgentError", "boom"⟩) :=
  ((retry_exhausts_attempts Unit 3 (by norm_num) 1 true (fun _ => true)
      (fun _ => ⟨"AgentError", "boom"⟩) (fun _ => rfl)).1).trans
    (by norm_num [List.range_succ])

section ValidateLemmas

/-- String concatenation concatenates the underlying character lists. -/
lemma data_append_str (a b : String) : (a ++ b).data = a.data ++ b.data := rfl

/-- Every member of a list occurs as a contiguous substring of its
separator join. -/
lemma mem_strJoin (sep : String) (l : List String) (x : String) (hx : x ∈ l) :
    ∃ pre post : List Char, pre ++ x.data ++ post = (BaseAgent.strJoin sep l).data := by
  induction l with
  | nil => cases hx
  | cons a tl ih =>
    cases tl with
    | nil =>
      have hxa : x = a := by simpa using hx
      subst hxa
      exact ⟨[], [], by simp [BaseAgent.strJoin]⟩
    | cons b tl2 =>
      rcases List.mem_cons.mp hx with hxa | hxm
      · subst hxa
        refine ⟨[], (sep ++ BaseAgent.strJoin sep (b :: tl2)).data, ?_⟩
        simp [BaseAgent.strJoin, data_append_str]
      · rcases ih hxm with ⟨pre, post, hpp⟩
        refine ⟨(a ++ sep).data ++ pre, post, ?_⟩
        have hj : BaseAgent.strJoin sep (a :: b :: tl2) =
            a ++ sep ++ BaseAgent.strJoin sep (b :: tl2) := rfl
        rw [hj, data_append_str, data_append_str]
        rw [← hpp]
        simp

/-- Membership in the missing-keys list. -/
lemma mem_missingKeys (context required_keys : List String) (k : String) :
    k ∈ BaseAgent.missingKeys context required_keys ↔
      k ∈ required_keys ∧ k ∉ context := by
  simp [BaseAgent.missingKeys, List.mem_filter]

end ValidateLemmas

/-- C6: validation succeeds exactly when every required key is present in the
context, and when at least one is absent it raises an error whose message is
built from the full list of absent keys, every absent required key occurring
as a substring of the message (not just the first). -/
theorem validate_context_reports_all_missing (name : String)
    (context required_keys : List String) :
    (BaseAgent.validate_context name context required_keys = Except.ok () ↔
       ∀ k ∈ required_keys, k ∈ context) ∧
    (∀ k, k ∈ required_keys → k ∉ context →
       BaseAgent.validate_context name context required_keys =
         Except.error ⟨"ValueError",
           BaseAgent.missingMsg name (BaseAgent.missingKeys context required_keys)⟩ ∧
       ∃ pre post : List Char,
         pre ++ k.data ++ post =
           (BaseAgent.missingMsg name
             (BaseAgent.missingKeys context required_keys)).data) := by
  constructor
  · unfold BaseAgent.validate_context
    by_cases h : (BaseAgent.missingKeys context required_keys).isEmpty
    · rw [if_pos h]
      have hnil : BaseAgent.missingKeys context required_keys = [] := by
        simpa [List.isEmpty_iff] using h
      have hall : ∀ k ∈ required_keys, k ∈ context := by
        intro k hk
        by_contra hc
        have : k ∈ BaseAgent.missingKeys context required_keys :=
          (mem_missingKeys context required_keys k).mpr ⟨hk, hc⟩
        simp [hnil] at this
      exact ⟨fun _ => hall, fun _ => rfl⟩
    · rw [if_neg h]
      constructor
      · intro hcontra
        cases hcontra
      · intro hall
        exfalso
        apply h
        rw [List.isEmpty_iff]
        rcases hne : BaseAgent.missingKeys context required_keys with _ | ⟨k, tl⟩
        · rfl
        · have : k ∈ BaseAgent.missingKeys context required_keys := by
            rw [hne]; exact List.mem_cons_self k tl
          rcases (mem_missingKeys context required_keys k).mp this with ⟨hk, hnk⟩
          exact absurd (hall k hk) hnk
  · intro k hk hnk
    have hkmem : k ∈ BaseAgent.missingKeys context required_keys :=
      (mem_missingKeys context required_keys k).mpr ⟨hk, hnk⟩
    have hne : ¬ (BaseAgent.missingKeys context required_keys).isEmpty = true := by
      intro hemp
      rw [List.isEmpty_iff] at hemp
      simp [hemp] at hkmem
    constructor
    · unfold BaseAgent.validate_context
      rw [if_neg hne]
    · rcases mem_strJoin ", " (BaseAgent.missingKeys context required_keys) k hkmem with
        ⟨pre, post, hpp⟩
      refine ⟨(name ++ " missing required context keys: ").data ++ pre, post, ?_⟩
      have hmsg : (BaseAgent.missingMsg name
          (BaseAgent.missingKeys context required_keys)).data =
          (name ++ " missing required context keys: ").data ++
            (BaseAgent.strJoin ", " (BaseAgent.missingKeys context required_keys)).data := rfl
      rw [hmsg, ← hpp]
      simp

/-- Witness for C6: with required keys x, y, z and a context holding only x,
validation fails with the message naming the absent keys. -/
theorem validate_context_reports_all_missing_witness :
    BaseAgent.validate_context "A" ["x"] ["x", "y", "z"] =
      Except.error ⟨"ValueError",
        BaseAgent.missingMsg "A" (BaseAgent.missingKeys ["x"] ["x", "y", "z"])⟩ :=
  ((validate_context_reports_all_missing "A" ["x"] ["x", "y", "z"]).2
    "y" (by decide) (by decide)).1

/-- C7 counterexample: applied to a state missing repo_path (as left behind
by a failed clone), the analysis node does not return a mapping: it raises
KeyError. -/
theorem node_never_raises_counterexample :
    analyze_code_node (analyzerSuccess []) emptyD =
      Except.error ⟨"KeyError", "repo_path"⟩ :=
  rfl

/-- C7 amended: the clone, analysis and generation nodes return a mapping
(and in particular capture agent failures into returned errors data) whenever
the state contains the keys the node subscripts (repo_url as a string for
clone; repo_path for analyze; test_candidates and repo_path for generate) and
a successful agent result carries its advertised data keys; a state missing a
subscripted key instead makes the node raise KeyError. -/
theorem nodes_total_on_expected_keys :
    (∀ (r : AgentResult) (s : WorkflowState) (u : String),
        s "repo_url" = some (Val.str u) →
        (r.is_success = true → (r.data.lookup "repo_path").isSome = true) →
        exceptOk (clone_repository_node r s) = true) ∧
    (∀ (r : AgentResult) (s : WorkflowState) (v : Val),
        s "repo_path" = some v →
        (r.is_success = true → (r.data.lookup "test_candidates").isSome = true) →
        exceptOk (analyze_code_node r s) = true) ∧
    (∀ (r : AgentResult) (s : WorkflowState) (v w : Val),
        s "test_candidates" = some v → s "repo_path" = some w →
        (r.is_success = true →
          (r.data.lookup "generated_tests").isSome = true ∧
          (r.data.lookup "test_files").isSome = true) →
        exceptOk (generate_tests_node r s) = true) := by
  refine ⟨?_, ?_, ?_⟩
  · intro r s u hu hd
    unfold clone_repository_node
    by_cases hr2 : r.is_success
    · rcases Option.isSome_iff_exists.mp (hd hr2) with ⟨val, hval⟩
      simp [wsub, hu, asStr, hr2, dsub, hval, exceptOk, Bind.bind, Except.bind]
    · simp [wsub, hu, asStr, hr2, exceptOk, Bind.bind, Except.bind]
  · intro r s v hv hd
    unfold analyze_code_node
    by_cases hr2 : r.is_success
    · rcases Option.isSome_iff_exists.mp (hd hr2) with ⟨val, hval⟩
      simp [wsub, hv, hr2, dsub, hval, exceptOk, Bind.bind, Except.bind]
    · simp [wsub, hv, hr2, exceptOk, Bind.bind, Except.bind]
  · intro r s v w hv hw hd
    unfold generate_tests_node
    by_cases hr2 : r.is_success
    · rcases Option.isSome_iff_exists.mp (hd hr2).1 with ⟨val1, hval1⟩
      rcases Option.isSome_iff_exists.mp (hd hr2).2 with ⟨val2, hval2⟩
      simp [wsub, hv, hw, hr2, dsub, hval1, hval2, exceptOk, Bind.bind, Except.bind]
    · simp [wsub, hv, hw, hr2, exceptOk, Bind.bind, Except.bind]

/-- Witness for the amended C7: the clone node on the workflow's initial
state with a successful clone result returns a mapping. -/
theorem nodes_total_on_expected_keys_witness :
    exceptOk (clone_repository_node (gitCloneSuccess "workspaces/repo" "main")
      (initState 90)) = true :=
  nodes_total_on_expected_keys.1 (gitCloneSuccess "workspaces/repo" "main")
    (initState 90) "https://dev.azure.com/org/proj/_git/repo.git" rfl (fun _ => rfl)

/-- The claimed StepResult invariant: the error field is present exactly when
the status is Failed. -/
def errorIffFailed (r : AgentResult) : Prop :=
  r.error.isSome = true ↔ r.status = AgentStatus.failed

/-- C8 counterexample: the AgentResult constructor does not enforce the
invariant; it accepts a SUCCESS status together with an error string, so a
directly constructed result can carry an error while not being Failed. -/
theorem result_invariant_counterexample :
    (AgentResult.mk AgentStatus.success [] (some "boom") []).error.isSome = true ∧
    ¬ (AgentResult.mk AgentStatus.success [] (some "boom") []).status
        = AgentStatus.failed :=
  ⟨rfl, by decide⟩

/-- C8 amended: every result produced by the run wrapper's exception path is
Failed with the error present, run passes execute's result through unchanged,
and every result literally constructed by the agents' execute code (the
success results of the git, sonar, analyzer, test-generation and PR agents,
and the skipped commit result, none of which pass an error) satisfies
present-iff-Failed; only direct construction can violate it. -/
theorem constructed_results_error_iff_failed :
    (∀ e : PyErr, errorIffFailed (BaseAgent.run (Except.error e))) ∧
    (∀ r : AgentResult, BaseAgent.run (Except.ok r) = r) ∧
    (∀ p b, errorIffFailed (gitCloneSuccess p b)) ∧
    (∀ b, errorIffFailed (gitBranchSuccess b)) ∧
    errorIffFailed gitCommitSkipped ∧
    (∀ sha m, errorIffFailed (gitCommitSuccess sha m)) ∧
    (∀ b, errorIffFailed (gitPushSuccess b)) ∧
    (∀ pk (c : ℚ) ms ul uf su, errorIffFailed (sonarSuccess pk c ms ul uf su)) ∧
    (∀ tc, errorIffFailed (analyzerSuccess tc)) ∧
    (∀ gt tf fw, errorIffFailed (testGenSuccess gt tf fw)) ∧
    (∀ (pid : ℚ) purl sb tb t, errorIffFailed (prSuccess pid purl sb tb t)) := by
  refine ⟨?_, fun _ => rfl, ?_, ?_, ?_, ?_, ?_, ?_, ?_, ?_, ?_⟩ <;>
    intros <;>
    simp [errorIffFailed, BaseAgent.run, gitCloneSuccess, gitBranchSuccess,
      gitCommitSkipped, gitCommitSuccess, gitPushSuccess, sonarSuccess,
      analyzerSuccess, testGenSuccess, prSuccess]

/-- C10: the background runner records SUCCESS exactly when the final state's
status key does not hold the string "failed"; a state with no status key at
all (as after an early coverage-sufficient termination) is recorded SUCCESS -
concretely, the full scenario-A run is recorded SUCCESS; and merging an
update that sets status to "success" (as the create_pr success path does)
over a state whose status was "failed" yields a state recorded SUCCESS -
concretely, the scenario-B run ends with status "success". -/
theorem outcome_recording :
    (∀ s : WorkflowState,
        recordOutcome s = WorkflowStatus.success ↔
          ¬ s "status" = some (Val.str "failed")) ∧
    (∀ s : WorkflowState, s "status" = Option.none →
        recordOutcome s = WorkflowStatus.success) ∧
    (runWorkflow (implWith 95) (initState 90)).2.map recordOutcome =
      Except.ok WorkflowStatus.success ∧
    (∀ s p : WorkflowState, s "status" = some (Val.str "failed") →
        p "status" = some (Val.str "success") →
        recordOutcome (merge s p) = WorkflowStatus.success) ∧
    (runWorkflow (implWith 60) (initState 90)).2.map (fun s => s "status") =
      Except.ok (some (Val.str "success")) := by
  have hiff : ∀ o : Option Val, isFailedStr o = true ↔ o = some (Val.str "failed") := by
    intro o
    cases o with
    | none => simp [isFailedStr]
    | some v => cases v <;> simp [isFailedStr]
  refine ⟨?_, ?_, rfl, ?_, rfl⟩
  · intro s
    unfold recordOutcome
    by_cases h : isFailedStr (s "status") = true
    · simp [h, (hiff (s "status")).mp h, isFailedStr]
    · simp only [h]
      simp only [Bool.false_eq_true, if_false, true_iff]
      intro hc
      exact h ((hiff (s "status")).mpr hc)
  · intro s hs
    unfold recordOutcome
    simp [isFailedStr, hs]
  · intro s p _ hp
    unfold recordOutcome
    simp [merge, hp, isFailedStr]

/-- Witness for C10: merging a status-success update over a status-failed
state records SUCCESS. -/
theorem outcome_recording_witness :
    recordOutcome (merge (pdict [("status", Val.str "failed")])
      (pdict [("status", Val.str "success")])) = WorkflowStatus.success :=
  outcome_recording.2.2.2.1 (pdict [("status", Val.str "failed")])
    (pdict [("status", Val.str "success")]) rfl rfl

end Pragents
